import Mathlib

/-!
Shallow embedding of the Backpack C++ SDK websocket connectivity core
(`include/backpack/types.hpp`, `src/websocket_client.cpp`, and the
alternate client variants shipped in the repository), together with
theorems settling the specification claims about it.
-/

namespace Backpack

/-- Subscription channels, mirroring `enum class Channel` in
`include/backpack/types.hpp`. -/
inductive Channel where
  | TICKER
  | TRADES
  | CANDLES_1M
  | CANDLES_5M
  | CANDLES_15M
  | CANDLES_1H
  | CANDLES_4H
  | CANDLES_1D
  | DEPTH
  | DEPTH_SNAPSHOT
  | USER_ORDERS
  | USER_TRADES
  | USER_POSITIONS
  | USER_BALANCES
  | ORDERS
  | POSITIONS
  | BALANCES
  deriving DecidableEq, Repr, Fintype

/-- `channel_to_string` from `include/backpack/types.hpp` (lines 38-59). -/
def channel_to_string : Channel → String
  | .TICKER => "ticker"
  | .TRADES => "trades"
  | .CANDLES_1M => "candle.1m"
  | .CANDLES_5M => "candle.5m"
  | .CANDLES_15M => "candle.15m"
  | .CANDLES_1H => "candle.1h"
  | .CANDLES_4H => "candle.4h"
  | .CANDLES_1D => "candle.1d"
  | .DEPTH => "depth"
  | .DEPTH_SNAPSHOT => "depth"
  | .USER_ORDERS => "orders"
  | .USER_TRADES => "user.trades"
  | .USER_POSITIONS => "positions"
  | .USER_BALANCES => "balances"
  | .ORDERS => "orders"
  | .POSITIONS => "positions"
  | .BALANCES => "balances"

/-- `string_to_channel` from `include/backpack/types.hpp` (lines 62-77):
a chain of equality tests, `std::nullopt` when nothing matches. -/
def string_to_channel (str : String) : Option Channel :=
  if str = "ticker" then some .TICKER
  else if str = "trades" then some .TRADES
  else if str = "candle.1m" then some .CANDLES_1M
  else if str = "candle.5m" then some .CANDLES_5M
  else if str = "candle.15m" then some .CANDLES_15M
  else if str = "candle.1h" then some .CANDLES_1H
  else if str = "candle.4h" then some .CANDLES_4H
  else if str = "candle.1d" then some .CANDLES_1D
  else if str = "depth" then some .DEPTH
  else if str = "orders" then some .USER_ORDERS
  else if str = "trades" then some .USER_TRADES
  else if str = "positions" then some .USER_POSITIONS
  else if str = "balances" then some .USER_BALANCES
  else none

/-- The symbol conversion performed when sending frames:
`std::replace(s.begin(), s.end(), '-', '_')` in
`SubscriptionRequest::to_json` / `UnsubscriptionRequest::to_json`
(`include/backpack/types.hpp` lines 119-131). -/
def hyphen_to_underscore (s : String) : String :=
  ⟨s.data.map (fun c => if c = '-' then '_' else c)⟩

/-- The inverse conversion performed when parsing inbound stream names:
`std::replace(symbol.begin(), symbol.end(), '_', '-')` in
`BackpackWebSocketClient::handle_message` (`src/websocket_client.cpp`
line 466). -/
def underscore_to_hyphen (s : String) : String :=
  ⟨s.data.map (fun c => if c = '_' then '-' else c)⟩

/-- API credentials (`struct Credentials`, `include/backpack/types.hpp`
lines 169-176; the `.cpp` refers to the secret field as `api_secret`). -/
structure Credentials where
  api_key : String
  api_secret : String

/-- `Credentials::is_valid`: both fields non-empty. -/
def Credentials.is_valid (c : Credentials) : Bool :=
  !c.api_key.isEmpty && !c.api_secret.isEmpty

/-- The stream name built by `SubscriptionRequest::to_json` /
`UnsubscriptionRequest::to_json`: the hyphenated client symbol is
rewritten with underscores and appended after a dot unless empty. -/
def request_stream (channel : Channel) (symbol : String) : String :=
  let formatted_symbol := if symbol.isEmpty then symbol else hyphen_to_underscore symbol
  channel_to_string channel ++
    (if formatted_symbol.isEmpty then "" else "." ++ formatted_symbol)

/-- Serialization of a two-field nlohmann-json object
`\x7b"method": m, "params": [p...]\x7d` as produced by `json::dump()`
(nlohmann objects iterate keys in sorted order, and "method" < "params"). -/
def dump_method_params (method : String) (params : List String) : String :=
  "\x7b\"method\":\"" ++ method ++ "\",\"params\":[" ++
    String.intercalate "," (params.map (fun p => "\"" ++ p ++ "\"")) ++ "]\x7d"

/-- The serialized frame `SubscriptionRequest::to_json().dump()`. -/
def subscribe_frame (channel : Channel) (symbol : String) : String :=
  dump_method_params "SUBSCRIBE" [request_stream channel symbol]

/-- The serialized frame `UnsubscriptionRequest::to_json().dump()`. -/
def unsubscribe_frame (channel : Channel) (symbol : String) : String :=
  dump_method_params "UNSUBSCRIBE" [request_stream channel symbol]

/-- State of a `BackpackWebSocketClient`
(`src/websocket_client.cpp` / the secure_rest header).  Consumers are
identified by natural numbers; `callbacks` models the
`std::map<std::string, MessageCallback> callbacks_` as a key-indexed
partial map and `general_callback` the single catch-all slot.
`message_queue` is the outbound `std::queue<std::string>`. -/
structure ClientState where
  connected : Bool
  authenticated : Bool
  credentials : Credentials
  callbacks : String → Option Nat
  general_callback : Option Nat
  message_queue : List String

/-- The freshly-constructed client: both flags false, empty credentials,
no registered callbacks, empty outbound queue. -/
def initState : ClientState :=
  { connected := false
    authenticated := false
    credentials := { api_key := "", api_secret := "" }
    callbacks := fun _ => none
    general_callback := none
    message_queue := [] }

/-- `BackpackWebSocketClient::get_callback_key` (lines 427-436):
`channel_to_string(channel)` plus `":" + symbol` when the symbol is
non-empty. -/
def get_callback_key (channel : Channel) (symbol : String) : String :=
  channel_to_string channel ++ (if symbol.isEmpty then "" else ":" ++ symbol)

/-- `BackpackWebSocketClient::send_message` (lines 407-425): refuse when
not connected, otherwise push the frame onto the outbound queue and
report success. -/
def send_message (st : ClientState) (message : String) : Bool × ClientState :=
  if !st.connected then (false, st)
  else (true, { st with message_queue := st.message_queue ++ [message] })

/-- `BackpackWebSocketClient::authenticate` (lines 165-197).  `authMsg`
stands for `generate_auth_payload(...).dump()`, whose exact bytes depend
on the wall clock; `ackArrives` is the oracle for whether the reader
thread observes a successful auth acknowledgment within the 5s poll
loop (which sets `authenticated_`). -/
def authenticate (st : ClientState) (authMsg : String) (ackArrives : Bool) :
    Bool × ClientState :=
  if !st.connected then (false, st)
  else if !st.credentials.is_valid then (false, st)
  else
    let sent := send_message st authMsg
    if !sent.1 then (false, sent.2)
    else
      let st' := if ackArrives then { sent.2 with authenticated := true } else sent.2
      (st'.authenticated, st')

/-- The channel test in `BackpackWebSocketClient::subscribe`
(lines 206-209): exactly the four `USER_` channels require
authentication. -/
def requires_auth (channel : Channel) : Bool :=
  channel = Channel.USER_BALANCES || channel = Channel.USER_ORDERS ||
  channel = Channel.USER_POSITIONS || channel = Channel.USER_TRADES

/-- `BackpackWebSocketClient::subscribe` (lines 199-235): refuse when not
connected; for auth-requiring channels with `authenticated_` unset, run
`authenticate()` first and fail if it fails; then enqueue the
serialized subscription frame. -/
def subscribe (st : ClientState) (authMsg : String) (ackArrives : Bool)
    (channel : Channel) (symbol : String) : Bool × ClientState :=
  if !st.connected then (false, st)
  else if requires_auth channel && !st.authenticated then
    let auth := authenticate st authMsg ackArrives
    if !auth.1 then (false, auth.2)
    else send_message auth.2 (subscribe_frame channel symbol)
  else send_message st (subscribe_frame channel symbol)

/-- `BackpackWebSocketClient::unsubscribe` (lines 237-256): refuse when
not connected, otherwise enqueue the serialized unsubscription frame.
It never touches `callbacks_`. -/
def unsubscribe (st : ClientState) (channel : Channel) (symbol : String) :
    Bool × ClientState :=
  if !st.connected then (false, st)
  else send_message st (unsubscribe_frame channel symbol)

/-- `BackpackWebSocketClient::register_callback` (lines 258-262):
`callbacks_[key] = callback` (insert or replace). -/
def register_callback (st : ClientState) (channel : Channel) (symbol : String)
    (consumer : Nat) : ClientState :=
  let key := get_callback_key channel symbol
  { st with callbacks := fun k => if k = key then some consumer else st.callbacks k }

/-- `BackpackWebSocketClient::register_general_callback` (lines 264-267). -/
def register_general_callback (st : ClientState) (consumer : Nat) : ClientState :=
  { st with general_callback := some consumer }

/-- `BackpackWebSocketClient::on_open` (lines 309-311). -/
def on_open (st : ClientState) : ClientState :=
  { st with connected := true }

/-- `BackpackWebSocketClient::on_close` (lines 313-316). -/
def on_close (st : ClientState) : ClientState :=
  { st with connected := false, authenticated := false }

/-- `BackpackWebSocketClient::on_error` (lines 350-359). -/
def on_error (st : ClientState) : ClientState :=
  { st with connected := false, authenticated := false }

/-- `BackpackWebSocketClient::disconnect` (lines 120-159): a no-op when
not connected, otherwise closes the transport and clears both flags. -/
def disconnect (st : ClientState) : ClientState :=
  if !st.connected then st
  else { st with connected := false, authenticated := false }

/-- `BackpackWebSocketClient::ping` (lines 269-285): enqueue
`\x7b"method":"PING"\x7d` when connected, else a no-op. -/
def ping (st : ClientState) : ClientState :=
  if !st.connected then st
  else (send_message st "\x7b\"method\":\"PING\"\x7d").2

/-- Split a character list at the first dot, as `stream.find('.')` /
`substr` do in `handle_message` (lines 461-469). -/
def split_at_dot : List Char → Option (List Char × List Char)
  | [] => none
  | c :: cs =>
    if c = '.' then some ([], cs)
    else
      match split_at_dot cs with
      | some (a, b) => some (c :: a, b)
      | none => none

/-- Stream-name parsing in `handle_message`: channel identifier before
the first dot, symbol after it with underscores turned back into
hyphens; a dotless stream is all channel, empty symbol. -/
def parse_stream (stream : String) : String × String :=
  match split_at_dot stream.data with
  | some (a, b) => (⟨a⟩, underscore_to_hyphen ⟨b⟩)
  | none => (stream, "")

/-- The shape of a parsed inbound frame as `on_message` /
`handle_message` inspect it: whether a `"type":"auth"` field is
present (and its `success` flag), whether an `"error"` key is present,
and the `"stream"` / `"data"` envelope fields. -/
structure InboundMsg where
  isAuthType : Bool
  authSuccess : Bool
  hasError : Bool
  stream : Option String
  hasData : Bool

/-- `BackpackWebSocketClient::handle_message` (lines 438-498), reduced to
which specific consumer (if any) receives the `data` payload: error
frames and frames without `stream`/`data` are dropped; otherwise the
stream name is split, the channel string parsed, and the dispatch
table consulted first at the exact `(channel, symbol)` key and then at
the `(channel, "")` wildcard key. -/
def handle_message (st : ClientState) (msg : InboundMsg) : Option Nat :=
  if msg.hasError then none
  else
    match msg.stream with
    | none => none
    | some stream =>
      if !msg.hasData then none
      else
        let parsed := parse_stream stream
        match string_to_channel parsed.1 with
        | none => none
        | some channel =>
          match st.callbacks (get_callback_key channel parsed.2) with
          | some consumer => some consumer
          | none => st.callbacks (get_callback_key channel "")

/-- `BackpackWebSocketClient::on_message` (lines 318-348): auth frames
update `authenticated_` and short-circuit; every other parsed frame is
handed to the general callback (when registered) and then routed by
`handle_message`.  Returns the successor state, the invoked catch-all
consumer (if any) and the invoked specific consumer (if any). -/
def on_message (st : ClientState) (msg : InboundMsg) :
    ClientState × Option Nat × Option Nat :=
  if msg.isAuthType then
    (if msg.authSuccess then { st with authenticated := true } else st, none, none)
  else
    (st, st.general_callback, handle_message st msg)

/-- `WebSocketClient::MAX_QUEUE_SIZE` from
`install/include/backpack/websocket_client.hpp` line 22. -/
def MAX_QUEUE_SIZE : Nat := 1000

/-- The exceptions thrown by the ixwebsocket-based `WebSocketClient::send`
(`unnamed/part_004` lines 134-146): "Not connected to server" and
"Message queue is full". -/
inductive WsSendError where
  | NotConnected
  | QueueFull
  deriving DecidableEq, Repr

/-- `WebSocketClient::send` (`unnamed/part_004` lines 134-146): throw when
not connected; throw `QueueFull` when the queue already holds
`MAX_QUEUE_SIZE` frames; otherwise push the frame and hand it to
`send_with_retry` (whose transport outcome is the `retryOk` oracle). -/
def WebSocketClient.send (connected : Bool) (retryOk : Bool)
    (queue : List String) (message : String) :
    Except WsSendError (Bool × List String) :=
  if !connected then .error .NotConnected
  else if MAX_QUEUE_SIZE ≤ queue.length then .error .QueueFull
  else .ok (retryOk, queue ++ [message])

/-- State of the second `BackpackClient` variant in `unnamed/part_002`
(lines 181-450): its own `connected_`/`authenticated_` flags,
credential strings, the `message_handlers_` map keyed by
`channel:symbol`, and the frames handed to `ws_client_->send`. -/
structure BackpackClientState where
  connected : Bool
  authenticated : Bool
  api_key : String
  api_secret : String
  message_handlers : String → Option Nat
  outbound : List String

/-- Serialization of the nlohmann object
`\x7b"type": ty, "channel": ch\x7d` with an optional `"symbol"` key,
as dumped by that `BackpackClient` variant (keys iterate sorted:
"channel" < "symbol" < "type"). -/
def dump_type_channel (ty : String) (ch : String) (sym : Option String) : String :=
  "\x7b\"channel\":\"" ++ ch ++ "\"" ++
    (match sym with
     | some s => ",\"symbol\":\"" ++ s ++ "\""
     | none => "") ++
    ",\"type\":\"" ++ ty ++ "\"\x7d"

/-- `BackpackClient::unsubscribe` from `unnamed/part_002` lines 332-360:
refuse when not connected; erase the `message_handlers_` entry at
`channel_to_string(channel) + ":" + symbol`; send the unsubscription
frame (with the `"symbol"` key only when the symbol is non-empty). -/
def BackpackClient.unsubscribe (st : BackpackClientState) (channel : Channel)
    (symbol : String) : Bool × BackpackClientState :=
  if !st.connected then (false, st)
  else
    let key := channel_to_string channel ++ ":" ++ symbol
    let frame := dump_type_channel "unsubscribe" (channel_to_string channel)
      (if symbol.isEmpty then none else some symbol)
    (true,
      { st with
        message_handlers := fun k => if k = key then none else st.message_handlers k
        outbound := st.outbound ++ [frame] })

/-- `BackpackWebSocketClient::set_credentials` (lines 55-59). -/
def set_credentials (st : ClientState) (key secret : String) : ClientState :=
  { st with credentials := { api_key := key, api_secret := secret } }

/-- One step of the `BackpackWebSocketClient` event loop: any public
operation or transport-driven handler may fire.  `connect()` itself
mutates neither flag (the `connected_` flag is set by the `on_open`
handler, modeled as its own step); `on_message` only fires while the
transport connection is open, which is the delivery guarantee of the
underlying websocket library. -/
inductive Step : ClientState → ClientState → Prop
  | set_credentials (st : ClientState) (key secret : String) :
      Step st (set_credentials st key secret)
  | register_callback (st : ClientState) (channel : Channel) (symbol : String)
      (consumer : Nat) : Step st (register_callback st channel symbol consumer)
  | register_general_callback (st : ClientState) (consumer : Nat) :
      Step st (register_general_callback st consumer)
  | on_open (st : ClientState) : Step st (on_open st)
  | on_close (st : ClientState) : Step st (on_close st)
  | on_error (st : ClientState) : Step st (on_error st)
  | disconnect (st : ClientState) : Step st (disconnect st)
  | ping (st : ClientState) : Step st (ping st)
  | authenticate (st : ClientState) (authMsg : String) (ackArrives : Bool) :
      Step st (authenticate st authMsg ackArrives).2
  | subscribe (st : ClientState) (authMsg : String) (ackArrives : Bool)
      (channel : Channel) (symbol : String) :
      Step st (subscribe st authMsg ackArrives channel symbol).2
  | unsubscribe (st : ClientState) (channel : Channel) (symbol : String) :
      Step st (unsubscribe st channel symbol).2
  | on_message (st : ClientState) (msg : InboundMsg) (h : st.connected = true) :
      Step st (on_message st msg).1

/-- States reachable from the freshly-constructed client. -/
inductive Reachable : ClientState → Prop
  | init : Reachable initState
  | step {s s' : ClientState} : Reachable s → Step s s' → Reachable s'

/-- A client-facing symbol over the standard base/quote alphabet:
alphanumeric characters and the hyphen separator. -/
def is_hyphen_symbol (s : String) : Bool :=
  s.data.all (fun c => c.isAlphanum || c = '-')

/-- A wire-format symbol over the standard base/quote alphabet:
alphanumeric characters and the underscore separator. -/
def is_underscore_symbol (s : String) : Bool :=
  s.data.all (fun c => c.isAlphanum || c = '_')

/-- A connected client with a consumer (id 5) registered at
`(TICKER, "SOL-USDC")`, used to exercise `unsubscribe`. -/
def unsubDemoState : ClientState :=
  register_callback (on_open initState) Channel.TICKER "SOL-USDC" 5

/-- A connected `BackpackClient` (the `unnamed/part_002` variant) with a
handler (id 3) registered under `"ticker:SOL-USDC"`. -/
def bpUnsubDemoState : BackpackClientState :=
  { connected := true
    authenticated := false
    api_key := ""
    api_secret := ""
    message_handlers := fun k => if k = "ticker:SOL-USDC" then some 3 else none
    outbound := [] }

/-- The client used to witness the routing claim: a consumer (id 7)
registered at `(TICKER, "SOL-USDC")` and a catch-all consumer (id 9),
connection open. -/
def routingDemoState : ClientState :=
  register_general_callback
    (register_callback (on_open initState) Channel.TICKER "SOL-USDC" 7) 9

/-- An inbound ticker data frame for stream `ticker.SOL_USDC`. -/
def routingDemoMsg : InboundMsg :=
  { isAuthType := false
    authSuccess := false
    hasError := false
    stream := some "ticker.SOL_USDC"
    hasData := true }

/-- A successful `\x7b"type":"auth","success":true\x7d` acknowledgment
frame. -/
def authAckMsg : InboundMsg :=
  { isAuthType := true
    authSuccess := true
    hasError := false
    stream := none
    hasData := false }

/-- Claim C1 counterexample: the enum-to-wire-string mapping is not a
bijection (`DEPTH` and `DEPTH_SNAPSHOT` both map to `"depth"`), and the
round trip fails at `USER_TRADES`: `channel_to_string(USER_TRADES)` is
`"user.trades"` but `string_to_channel("user.trades")` is no-match, so
`channel_to_string(string_to_channel(channel_to_string(c)))` is not even
defined there. -/
theorem channel_string_bijection_counterexample :
    channel_to_string Channel.DEPTH = channel_to_string Channel.DEPTH_SNAPSHOT ∧
    Channel.DEPTH ≠ Channel.DEPTH_SNAPSHOT ∧
    string_to_channel (channel_to_string Channel.USER_TRADES) = none := by
  decide

set_option maxHeartbeats 1000000 in
/-- Claim C1 (amended): for every `Channel` except `USER_TRADES`,
`string_to_channel(channel_to_string(c))` matches some channel carrying
the same wire string, so the composed round trip
`channel_to_string(string_to_channel(channel_to_string(c))) ==
channel_to_string(c)` holds; and `string_to_channel` on any string
outside the image of `channel_to_string` returns no match, never a
default value. -/
theorem channel_string_round_trip_amended :
    (∀ c : Channel, c ≠ Channel.USER_TRADES →
      (string_to_channel (channel_to_string c)).map channel_to_string =
        some (channel_to_string c)) ∧
    (∀ s : String, (∀ c : Channel, channel_to_string c ≠ s) →
      string_to_channel s = none) := by
  constructor
  · decide
  · intro s hs
    unfold string_to_channel
    split_ifs with h1 h2 h3 h4 h5 h6 h7 h8 h9 h10 h11 h12
    · exact absurd h1.symm (hs Channel.TICKER)
    · exact absurd h2.symm (hs Channel.TRADES)
    · exact absurd h3.symm (hs Channel.CANDLES_1M)
    · exact absurd h4.symm (hs Channel.CANDLES_5M)
    · exact absurd h5.symm (hs Channel.CANDLES_15M)
    · exact absurd h6.symm (hs Channel.CANDLES_1H)
    · exact absurd h7.symm (hs Channel.CANDLES_4H)
    · exact absurd h8.symm (hs Channel.CANDLES_1D)
    · exact absurd h9.symm (hs Channel.DEPTH)
    · exact absurd h10.symm (hs Channel.USER_ORDERS)
    · exact absurd h11.symm (hs Channel.USER_POSITIONS)
    · exact absurd h12.symm (hs Channel.USER_BALANCES)
    · rfl

/-- Claim C1 witness: the amended round trip evaluated at `TICKER`, and
the no-match behavior evaluated at the unrecognized string `"bogus"`. -/
theorem channel_string_round_trip_witness :
    (string_to_channel (channel_to_string Channel.TICKER)).map channel_to_string =
      some (channel_to_string Channel.TICKER) ∧
    string_to_channel "bogus" = none :=
  ⟨channel_string_round_trip_amended.1 Channel.TICKER (by decide),
   channel_string_round_trip_amended.2 "bogus" (by decide)⟩

/-- Claim C2: for every inbound data frame (not an auth ack, no error
key, carrying `stream` and `data`) whose stream name parses to a known
channel: the state is unchanged, the catch-all consumer (when
registered) is invoked, a consumer registered at the exact
`(channel, symbol)` key is invoked, and when no exact registration
exists routing falls back to the `(channel, "")` wildcard key — yielding
the wildcard consumer when registered and a silent no-op otherwise. -/
theorem dispatch_routing_precedence (st : ClientState) (msg : InboundMsg)
    (stream : String) (channel : Channel)
    (hauth : msg.isAuthType = false) (herr : msg.hasError = false)
    (hstream : msg.stream = some stream) (hdata : msg.hasData = true)
    (hch : string_to_channel (parse_stream stream).1 = some channel) :
    (on_message st msg).1 = st ∧
    (on_message st msg).2.1 = st.general_callback ∧
    (∀ cb, st.callbacks (get_callback_key channel (parse_stream stream).2) = some cb →
      (on_message st msg).2.2 = some cb) ∧
    (st.callbacks (get_callback_key channel (parse_stream stream).2) = none →
      (on_message st msg).2.2 = st.callbacks (get_callback_key channel "")) := by
  unfold on_message handle_message
  simp only [hauth, herr, hstream, hdata, hch, Bool.false_eq_true, if_false,
    Bool.not_true, if_neg]
  refine ⟨trivial, trivial, ?_, ?_⟩
  · intro cb hcb
    simp [hcb]
  · intro hnone
    simp [hnone]

/-- Claim C2 witness: the routing theorem applied to a concrete client
holding a `(TICKER, "SOL-USDC")` registration and a catch-all, on a
concrete inbound `ticker.SOL_USDC` frame. -/
theorem dispatch_routing_precedence_witness :
    (on_message routingDemoState routingDemoMsg).1 = routingDemoState ∧
    (on_message routingDemoState routingDemoMsg).2.1 = routingDemoState.general_callback ∧
    (∀ cb, routingDemoState.callbacks
        (get_callback_key Channel.TICKER (parse_stream "ticker.SOL_USDC").2) = some cb →
      (on_message routingDemoState routingDemoMsg).2.2 = some cb) ∧
    (routingDemoState.callbacks
        (get_callback_key Channel.TICKER (parse_stream "ticker.SOL_USDC").2) = none →
      (on_message routingDemoState routingDemoMsg).2.2 =
        routingDemoState.callbacks (get_callback_key Channel.TICKER "")) :=
  dispatch_routing_precedence routingDemoState routingDemoMsg "ticker.SOL_USDC"
    Channel.TICKER rfl rfl rfl rfl (by decide)

/-- Claim C4: `authenticate()` requires the connected state and valid
credentials; when either precondition fails it returns false with the
state (in particular the outbound queue) completely unchanged — no I/O
is attempted. -/
theorem authenticate_precondition_noop (st : ClientState) (authMsg : String)
    (ack : Bool) (h : st.connected = false ∨ st.credentials.is_valid = false) :
    authenticate st authMsg ack = (false, st) := by
  rcases h with h | h <;> simp [authenticate, h]

/-- Claim C4 witness: `authenticate` on the freshly-constructed
(disconnected) client returns false and changes nothing. -/
theorem authenticate_precondition_noop_witness :
    authenticate initState "authframe" true = (false, initState) :=
  authenticate_precondition_noop initState "authframe" true (Or.inl rfl)

/-- Claim C3: subscribing to an auth-requiring channel while not yet
authenticated first attempts `authenticate()` and fails when it fails;
with credentials unset `authenticate()` fails, so a subsequent
`subscribe(USER_ORDERS, "")` fails too; in every other case a connected
client's `subscribe` enqueues exactly the serialized subscribe frame
and reports success. -/
theorem subscribe_auth_gate :
    (∀ (st : ClientState) (authMsg : String) (ack : Bool) (ch : Channel) (sym : String),
      requires_auth ch = true → st.authenticated = false →
      (authenticate st authMsg ack).1 = false →
      (subscribe st authMsg ack ch sym).1 = false) ∧
    (∀ (st : ClientState) (authMsg : String) (ack : Bool),
      st.credentials.api_key = "" → st.authenticated = false →
      (authenticate st authMsg ack).1 = false ∧
      (subscribe st authMsg ack Channel.USER_ORDERS "").1 = false) ∧
    (∀ (st : ClientState) (authMsg : String) (ack : Bool) (ch : Channel) (sym : String),
      st.connected = true → (requires_auth ch = false ∨ st.authenticated = true) →
      subscribe st authMsg ack ch sym =
        (true, { st with message_queue := st.message_queue ++ [subscribe_frame ch sym] })) := by
  have hgate : ∀ (st : ClientState) (authMsg : String) (ack : Bool) (ch : Channel)
      (sym : String), requires_auth ch = true → st.authenticated = false →
      (authenticate st authMsg ack).1 = false →
      (subscribe st authMsg ack ch sym).1 = false := by
    intro st authMsg ack ch sym hra hna hfail
    unfold subscribe
    by_cases hc : st.connected
    · simp only [hc, hra, hna, Bool.not_false, Bool.and_self, if_true, Bool.not_true,
        Bool.false_eq_true, if_false]
      simp [hfail]
    · simp [hc]
  have hnocred : ∀ (st : ClientState) (authMsg : String) (ack : Bool),
      st.credentials.api_key = "" → (authenticate st authMsg ack).1 = false := by
    intro st authMsg ack hk
    unfold authenticate
    by_cases hc : st.connected
    · have hemp : ("" : String).isEmpty = true := rfl
      simp [hc, Credentials.is_valid, hk, hemp]
    · simp [hc]
  refine ⟨hgate, ?_, ?_⟩
  · intro st authMsg ack hk hna
    exact ⟨hnocred st authMsg ack hk,
      hgate st authMsg ack Channel.USER_ORDERS "" (by decide) hna
        (hnocred st authMsg ack hk)⟩
  · intro st authMsg ack ch sym hc hor
    unfold subscribe
    rcases hor with h | h
    · simp [hc, h, send_message]
    · simp [hc, h, send_message]

/-- Claim C3 witness: on a connected client with credentials unset,
`authenticate` fails and `subscribe(USER_ORDERS, "")` fails; on the same
client, `subscribe(TICKER, "SOL-USDC")` succeeds and enqueues the frame. -/
theorem subscribe_auth_gate_witness :
    ((authenticate (on_open initState) "authframe" true).1 = false ∧
     (subscribe (on_open initState) "authframe" true Channel.USER_ORDERS "").1 = false) ∧
    subscribe (on_open initState) "authframe" true Channel.TICKER "SOL-USDC" =
      (true, { on_open initState with
        message_queue := (on_open initState).message_queue ++
          [subscribe_frame Channel.TICKER "SOL-USDC"] }) :=
  ⟨subscribe_auth_gate.2.1 (on_open initState) "authframe" true rfl rfl,
   subscribe_auth_gate.2.2 (on_open initState) "authframe" true Channel.TICKER
     "SOL-USDC" rfl (Or.inl (by decide))⟩

/-- Claim C5: the outbound queue is a bounded FIFO of capacity
`MAX_QUEUE_SIZE` (1000): a push onto a queue already holding
`MAX_QUEUE_SIZE` frames fails fast with the queue-full error (the frame
is not silently dropped — the caller is told), while any push below
capacity appends the frame in FIFO order. -/
theorem queue_backpressure :
    (∀ (q : List String) (msg : String) (retryOk : Bool),
      q.length = MAX_QUEUE_SIZE →
      WebSocketClient.send true retryOk q msg = .error .QueueFull) ∧
    (∀ (q : List String) (msg : String) (retryOk : Bool),
      q.length < MAX_QUEUE_SIZE →
      WebSocketClient.send true retryOk q msg = .ok (retryOk, q ++ [msg])) := by
  constructor
  · intro q msg r h
    simp [WebSocketClient.send, h]
  · intro q msg r h
    simp [WebSocketClient.send, Nat.not_le.mpr h]

/-- Claim C5 witness: pushing one more frame onto a queue of exactly
1000 frames yields `QueueFull`. -/
theorem queue_backpressure_witness :
    (List.replicate MAX_QUEUE_SIZE "frame").length = MAX_QUEUE_SIZE ∧
    WebSocketClient.send true true (List.replicate MAX_QUEUE_SIZE "frame") "extra" =
      .error .QueueFull :=
  ⟨by simp,
   queue_backpressure.1 (List.replicate MAX_QUEUE_SIZE "frame") "extra" true (by simp)⟩

/-- Claim C6: on a connected client, `subscribe(TICKER, "SOL-USDC")`
enqueues exactly one outbound frame, the serialized
`\x7b"method":"SUBSCRIBE","params":["ticker.SOL_USDC"]\x7d` (hyphen
rewritten to underscore); and for an empty symbol (account-scoped
channels) the stream name carries no symbol segment at all. -/
theorem subscribe_ticker_wire_frame :
    (∀ (st : ClientState) (authMsg : String) (ack : Bool),
      st.connected = true →
      subscribe st authMsg ack Channel.TICKER "SOL-USDC" =
        (true, { st with message_queue := st.message_queue ++
          ["\x7b\"method\":\"SUBSCRIBE\",\"params\":[\"ticker.SOL_USDC\"]\x7d"] })) ∧
    (∀ ch : Channel, subscribe_frame ch "" =
      dump_method_params "SUBSCRIBE" [channel_to_string ch]) := by
  constructor
  · intro st authMsg ack hc
    have hfr : subscribe_frame Channel.TICKER "SOL-USDC" =
        "\x7b\"method\":\"SUBSCRIBE\",\"params\":[\"ticker.SOL_USDC\"]\x7d" := by decide
    have hra : requires_auth Channel.TICKER = false := by decide
    unfold subscribe
    simp [hc, hra, send_message, hfr]
  · intro ch
    have hemp : ("" : String).isEmpty = true := rfl
    simp [subscribe_frame, request_stream, hemp]

/-- Claim C6 witness: the frame equality evaluated on a concrete
connected client, and the symbol-free stream name for `USER_ORDERS`. -/
theorem subscribe_ticker_wire_frame_witness :
    subscribe (on_open initState) "authframe" false Channel.TICKER "SOL-USDC" =
      (true, { on_open initState with
        message_queue := (on_open initState).message_queue ++
          ["\x7b\"method\":\"SUBSCRIBE\",\"params\":[\"ticker.SOL_USDC\"]\x7d"] }) ∧
    subscribe_frame Channel.USER_ORDERS "" =
      dump_method_params "SUBSCRIBE" [channel_to_string Channel.USER_ORDERS] :=
  ⟨subscribe_ticker_wire_frame.1 (on_open initState) "authframe" false rfl,
   subscribe_ticker_wire_frame.2 Channel.USER_ORDERS⟩

/-- Claim C7 counterexample: on a connected client with a consumer
registered at `(TICKER, "SOL-USDC")`, `BackpackWebSocketClient::unsubscribe`
returns true yet the dispatch-table entry is still registered afterwards
— the claim that no consumer remains at the key is false. -/
theorem unsubscribe_keeps_registration_counterexample :
    (unsubscribe unsubDemoState Channel.TICKER "SOL-USDC").1 = true ∧
    ((unsubscribe unsubDemoState Channel.TICKER "SOL-USDC").2).callbacks
      (get_callback_key Channel.TICKER "SOL-USDC") = some 5 := by
  constructor <;> rfl

/-- Claim C7 (amended): `BackpackWebSocketClient::unsubscribe` only sends
the unsubscribe frame, leaving the dispatch table exactly as it was;
it is the `BackpackClient::unsubscribe` wrapper of `unnamed/part_002`
that also erases its handler entry at `channel:symbol` (touching no
other key) while sending the unsubscribe frame. -/
theorem unsubscribe_dispatch_amended :
    (∀ (st : ClientState) (ch : Channel) (sym : String), st.connected = true →
      (unsubscribe st ch sym).1 = true ∧
      (unsubscribe st ch sym).2.callbacks = st.callbacks ∧
      (unsubscribe st ch sym).2.message_queue =
        st.message_queue ++ [unsubscribe_frame ch sym]) ∧
    (∀ (st : BackpackClientState) (ch : Channel) (sym : String), st.connected = true →
      (BackpackClient.unsubscribe st ch sym).1 = true ∧
      (BackpackClient.unsubscribe st ch sym).2.message_handlers
        (channel_to_string ch ++ ":" ++ sym) = none ∧
      (∀ k, k ≠ channel_to_string ch ++ ":" ++ sym →
        (BackpackClient.unsubscribe st ch sym).2.message_handlers k =
          st.message_handlers k) ∧
      (BackpackClient.unsubscribe st ch sym).2.outbound = st.outbound ++
        [dump_type_channel "unsubscribe" (channel_to_string ch)
          (if sym.isEmpty then none else some sym)]) := by
  constructor
  · intro st ch sym hc
    refine ⟨?_, ?_, ?_⟩ <;> simp [unsubscribe, send_message, hc]
  · intro st ch sym hc
    refine ⟨?_, ?_, ?_, ?_⟩
    · simp [BackpackClient.unsubscribe, hc]
    · simp [BackpackClient.unsubscribe, hc]
    · intro k hk
      simp [BackpackClient.unsubscribe, hc, hk]
    · simp [BackpackClient.unsubscribe, hc]

/-- Claim C7 witness: both unsubscribe implementations evaluated on
concrete connected clients holding a `(TICKER, "SOL-USDC")`
registration. -/
theorem unsubscribe_dispatch_amended_witness :
    ((unsubscribe unsubDemoState Channel.TICKER "SOL-USDC").1 = true ∧
     (unsubscribe unsubDemoState Channel.TICKER "SOL-USDC").2.callbacks =
       unsubDemoState.callbacks ∧
     (unsubscribe unsubDemoState Channel.TICKER "SOL-USDC").2.message_queue =
       unsubDemoState.message_queue ++
         [unsubscribe_frame Channel.TICKER "SOL-USDC"]) ∧
    ((BackpackClient.unsubscribe bpUnsubDemoState Channel.TICKER "SOL-USDC").1 = true ∧
     (BackpackClient.unsubscribe bpUnsubDemoState Channel.TICKER "SOL-USDC").2.message_handlers
       (channel_to_string Channel.TICKER ++ ":" ++ "SOL-USDC") = none ∧
     (∀ k, k ≠ channel_to_string Channel.TICKER ++ ":" ++ "SOL-USDC" →
       (BackpackClient.unsubscribe bpUnsubDemoState Channel.TICKER "SOL-USDC").2.message_handlers k =
         bpUnsubDemoState.message_handlers k) ∧
     (BackpackClient.unsubscribe bpUnsubDemoState Channel.TICKER "SOL-USDC").2.outbound =
       bpUnsubDemoState.outbound ++
         [dump_type_channel "unsubscribe" (channel_to_string Channel.TICKER)
           (if ("SOL-USDC" : String).isEmpty then none else some "SOL-USDC")]) :=
  ⟨unsubscribe_dispatch_amended.1 unsubDemoState Channel.TICKER "SOL-USDC" rfl,
   unsubscribe_dispatch_amended.2 bpUnsubDemoState Channel.TICKER "SOL-USDC" rfl⟩

/-- Composing two character maps that cancel pointwise on the members of
a list gives back the list. -/
theorem map2_id (f g : Char → Char) (l : List Char) (h : ∀ c ∈ l, g (f c) = c) :
    (l.map f).map g = l := by
  induction l with
  | nil => rfl
  | cons c cs ih =>
    simp only [List.map_cons, List.cons.injEq]
    exact ⟨h c (by simp), ih (fun x hx => h x (by simp [hx]))⟩

/-- Claim C8: on symbols over the alphanumeric base/quote alphabet, the
hyphen-to-underscore conversion used when sending subscribe frames and
the underscore-to-hyphen conversion used when parsing inbound stream
names are mutually inverse. -/
theorem symbol_normalization_round_trip (s t : String)
    (hs : is_hyphen_symbol s = true) (ht : is_underscore_symbol t = true) :
    underscore_to_hyphen (hyphen_to_underscore s) = s ∧
    hyphen_to_underscore (underscore_to_hyphen t) = t := by
  constructor
  · cases s with
    | mk l =>
      simp only [is_hyphen_symbol, List.all_eq_true, Bool.or_eq_true] at hs
      show String.mk ((l.map fun c => if c = '-' then '_' else c).map
        fun c => if c = '_' then '-' else c) = String.mk l
      refine congrArg String.mk (map2_id _ _ l ?_)
      intro c hc
      by_cases hd : c = '-'
      · simp [hd]
      · have halnum : c.isAlphanum = true := by
          rcases hs c hc with h | h
          · exact h
          · exact absurd (by exact decide_eq_true_eq.mp h) hd
        have hund : c ≠ '_' := by
          intro heq
          rw [heq] at halnum
          exact absurd halnum (by decide)
        simp [hd, hund]
  · cases t with
    | mk l =>
      simp only [is_underscore_symbol, List.all_eq_true, Bool.or_eq_true] at ht
      show String.mk ((l.map fun c => if c = '_' then '-' else c).map
        fun c => if c = '-' then '_' else c) = String.mk l
      refine congrArg String.mk (map2_id _ _ l ?_)
      intro c hc
      by_cases hd : c = '_'
      · simp [hd]
      · have halnum : c.isAlphanum = true := by
          rcases ht c hc with h | h
          · exact h
          · exact absurd (by exact decide_eq_true_eq.mp h) hd
        have hdash : c ≠ '-' := by
          intro heq
          rw [heq] at halnum
          exact absurd halnum (by decide)
        simp [hd, hdash]

/-- Claim C8 witness: the round trip evaluated at `"SOL-USDC"` and
`"SOL_USDC"`. -/
theorem symbol_normalization_round_trip_witness :
    underscore_to_hyphen (hyphen_to_underscore "SOL-USDC") = "SOL-USDC" ∧
    hyphen_to_underscore (underscore_to_hyphen "SOL_USDC") = "SOL_USDC" :=
  symbol_normalization_round_trip "SOL-USDC" "SOL_USDC" (by decide) (by decide)

/-- Claim C9: exactly the four `USER_` channels are treated as requiring
authentication by `subscribe`; the `ORDERS`/`POSITIONS`/`BALANCES` enum
values share the very same wire strings as their `USER_` counterparts
yet are not auth-gated, and subscribing to any non-auth-gated channel on
a connected client enqueues the frame with no authentication attempt:
the resulting state differs from the original only by the appended
subscribe frame (flags and queue otherwise untouched), regardless of
the `authenticated` flag or credential validity. -/
theorem auth_required_channel_set :
    (∀ ch : Channel, requires_auth ch = true ↔
      (ch = Channel.USER_BALANCES ∨ ch = Channel.USER_ORDERS ∨
       ch = Channel.USER_POSITIONS ∨ ch = Channel.USER_TRADES)) ∧
    (channel_to_string Channel.ORDERS = channel_to_string Channel.USER_ORDERS ∧
     channel_to_string Channel.POSITIONS = channel_to_string Channel.USER_POSITIONS ∧
     channel_to_string Channel.BALANCES = channel_to_string Channel.USER_BALANCES ∧
     requires_auth Channel.ORDERS = false ∧ requires_auth Channel.POSITIONS = false ∧
     requires_auth Channel.BALANCES = false) ∧
    (∀ (st : ClientState) (authMsg : String) (ack : Bool) (ch : Channel) (sym : String),
      st.connected = true → requires_auth ch = false →
      subscribe st authMsg ack ch sym =
        (true, { st with message_queue := st.message_queue ++ [subscribe_frame ch sym] })) := by
  refine ⟨by decide, by decide, ?_⟩
  intro st authMsg ack ch sym hc hra
  unfold subscribe
  simp [hc, hra, send_message]

/-- Claim C9 witness: subscribing to `ORDERS` (account-scoped wire string
`"orders"`, but not auth-gated) on a connected, unauthenticated client
with empty credentials still enqueues the frame with no authentication
attempt. -/
theorem auth_required_channel_set_witness :
    subscribe (on_open initState) "authframe" false Channel.ORDERS "" =
      (true, { on_open initState with
        message_queue := (on_open initState).message_queue ++
          [subscribe_frame Channel.ORDERS ""] }) :=
  auth_required_channel_set.2.2 (on_open initState) "authframe" false
    Channel.ORDERS "" rfl (by decide)

/-- `send_message` never changes the `connected_` flag. -/
theorem send_message_connected (st : ClientState) (m : String) :
    (send_message st m).2.connected = st.connected := by
  unfold send_message
  cases hc : st.connected <;> simp [hc]

/-- `send_message` never changes the `authenticated_` flag. -/
theorem send_message_authenticated (st : ClientState) (m : String) :
    (send_message st m).2.authenticated = st.authenticated := by
  unfold send_message
  cases hc : st.connected <;> simp [hc]

/-- An `authenticate` call preserves the authenticated-implies-connected
invariant. -/
theorem authenticate_step_inv (st : ClientState) (a : String) (b : Bool)
    (hinv : st.authenticated = true → st.connected = true) :
    (authenticate st a b).2.authenticated = true →
      (authenticate st a b).2.connected = true := by
  cases hc : st.connected
  · have he : authenticate st a b = (false, st) := by unfold authenticate; simp [hc]
    rw [he]
    exact hinv
  · cases hv : st.credentials.is_valid
    · have he : authenticate st a b = (false, st) := by unfold authenticate; simp [hc, hv]
      rw [he]
      exact hinv
    · have hcc : (authenticate st a b).2.connected = true := by
        unfold authenticate
        simp only [hc, hv, Bool.not_true, Bool.false_eq_true, if_false]
        cases hs : (send_message st a).1 <;> cases hb : b <;>
          simp [hs, hb, send_message_connected, hc]
      intro _
      exact hcc

/-- An `authenticate` call never changes the `connected_` flag. -/
theorem authenticate_connected_stable (st : ClientState) (a : String) (b : Bool) :
    (authenticate st a b).2.connected = st.connected := by
  cases hc : st.connected
  · have he : authenticate st a b = (false, st) := by unfold authenticate; simp [hc]
    rw [he, hc]
  · cases hv : st.credentials.is_valid
    · have he : authenticate st a b = (false, st) := by unfold authenticate; simp [hc, hv]
      rw [he, hc]
    · unfold authenticate
      simp only [hc, hv, Bool.not_true, Bool.false_eq_true, if_false]
      cases hs : (send_message st a).1 <;> cases hb : b <;>
        simp [hs, hb, send_message_connected, hc]

/-- A `subscribe` call preserves the authenticated-implies-connected
invariant. -/
theorem subscribe_step_inv (st : ClientState) (a : String) (b : Bool)
    (ch : Channel) (sym : String)
    (hinv : st.authenticated = true → st.connected = true) :
    (subscribe st a b ch sym).2.authenticated = true →
      (subscribe st a b ch sym).2.connected = true := by
  unfold subscribe
  cases hc : st.connected
  · simp only [hc, Bool.not_false, if_true]
    exact fun h => absurd (hinv h) (by simp [hc])
  · simp only [hc, Bool.not_true, Bool.false_eq_true, if_false]
    cases hgate : requires_auth ch && !st.authenticated
    · simp only [Bool.false_eq_true, if_false]
      intro _
      rw [send_message_connected]
      exact hc
    · simp only [if_true]
      cases hfail : (authenticate st a b).1
      · simp only [Bool.not_false, if_true]
        exact authenticate_step_inv st a b hinv
      · simp only [Bool.not_true, Bool.false_eq_true, if_false]
        intro _
        rw [send_message_connected, authenticate_connected_stable]
        exact hc

/-- Claim C10: in every state reachable by the client's step relation,
the `authenticated_` flag implies the `connected_` flag — every
transition clearing `connected_` also clears `authenticated_`, and
authentication is only ever established while connected. -/
theorem authenticated_implies_connected (s : ClientState) (hr : Reachable s) :
    s.authenticated = true → s.connected = true := by
  induction hr with
  | init => intro h; exact absurd h (by decide)
  | @step s' s'' hr' hstep ih =>
    cases hstep with
    | set_credentials key secret =>
      intro h
      simp only [set_credentials] at h ⊢
      exact ih h
    | register_callback ch sym cb =>
      intro h
      simp only [register_callback] at h ⊢
      exact ih h
    | register_general_callback cb =>
      intro h
      simp only [register_general_callback] at h ⊢
      exact ih h
    | on_open =>
      intro _
      simp [on_open]
    | on_close =>
      intro h
      simp [on_close] at h
    | on_error =>
      intro h
      simp [on_error] at h
    | disconnect =>
      unfold disconnect
      cases hc : s'.connected
      · simp only [hc, Bool.not_false, if_true]
        intro h
        rw [← hc]
        exact ih h
      · simp only [hc, Bool.not_true, Bool.false_eq_true, if_false]
        intro h
        simp at h
    | ping =>
      unfold ping
      cases hc : s'.connected
      · simp only [hc, Bool.not_false, if_true]
        intro h
        rw [← hc]
        exact ih h
      · simp only [hc, Bool.not_true, Bool.false_eq_true, if_false]
        intro h
        rw [send_message_authenticated] at h
        rw [send_message_connected]
        exact ih h
    | authenticate a b =>
      exact authenticate_step_inv s' a b ih
    | subscribe a b ch sym =>
      exact subscribe_step_inv s' a b ch sym ih
    | unsubscribe ch sym =>
      unfold unsubscribe
      cases hc : s'.connected
      · simp only [hc, Bool.not_false, if_true]
        intro h
        rw [← hc]
        exact ih h
      · simp only [hc, Bool.not_true, Bool.false_eq_true, if_false]
        intro h
        rw [send_message_authenticated] at h
        rw [send_message_connected]
        exact ih h
    | on_message msg hconn =>
      unfold on_message
      cases ha : msg.isAuthType
      · simp only [Bool.false_eq_true, if_false]
        exact ih
      · simp only [if_true]
        cases hsucc : msg.authSuccess
        · simp only [Bool.false_eq_true, if_false]
          exact ih
        · simp only [if_true]
          intro _
          exact hconn

/-- Claim C10 witness: the invariant applied to the concrete reachable
state obtained by opening the connection and then receiving a
successful auth acknowledgment — a state whose `authenticated` flag is
set and whose `connected` flag is proven true. -/
theorem authenticated_implies_connected_witness :
    ((on_message (on_open initState) authAckMsg).1).connected = true :=
  authenticated_implies_connected (on_message (on_open initState) authAckMsg).1
    (Reachable.step (Reachable.step Reachable.init (Step.on_open initState))
      (Step.on_message (on_open initState) authAckMsg rfl)) rfl

end Backpack
